import Mathlib

/-!
# termite: search dialog, key chords and URL clicks

A shallow embedding of the handlers of `termite.c`:
`search`, `search_response_cb`, `open_search_dialog`, `key_press_cb`,
`get_vte_padding`, `check_match` and `button_press_cb`.

The handlers are glue over two libraries that are not part of the program, VTE
(the terminal widget) and GTK/GLib.  The library state the handlers act on is made
explicit:

* a terminal widget is a record `VteTerminal` holding its active search regex, the
  list of requests issued on it so far (oldest first), its style border, its cell
  size and the text spans registered as matches;
* the toolkit is a record `World` mapping widget handles to terminals and to entry
  texts, and holding the list of existing dialogs and the list of spawned argument
  vectors;
* what the libraries decide on their own (whether a pattern text compiles, what a
  find request reports, key-value case folding, the accelerator modifier mask) is a
  parameter `Env`, and the values of `config.h` are a parameter `Config`.

C pointers to widgets are handles (`Nat`); a handler that receives a pointer takes
the state before the call and returns the state after it.
-/

namespace Termite

/-! ## GLib regexes -/

/-- A compiled `GRegex`, identified by the pattern text it was compiled from. -/
structure GRegex where
  pattern : String
deriving DecidableEq, Repr

/-! ## The terminal widget -/

/-- The `GtkBorder` of the `inner-border` style property. -/
structure GtkBorder where
  left : Int
  right : Int
  top : Int
  bottom : Int
deriving DecidableEq, Repr

/-- A request issued on a terminal widget.  The two find requests carry the value
the library returned for them (`true`: a match was found). -/
inductive VteRequest where
  | search_set_gregex (regex : Option GRegex)
  | search_find_next (found : Bool)
  | search_find_previous (found : Bool)
  | copy_primary
  | copy_clipboard
  | paste_clipboard
deriving DecidableEq, Repr

/-- The part of a `VteTerminal` the handlers read or write. -/
structure VteTerminal where
  /-- the active search pattern, `none` for `NULL` -/
  search_regex : Option GRegex
  /-- the requests issued on this terminal so far, oldest first -/
  requests : List VteRequest
  /-- the `inner-border` style property, `none` when unavailable -/
  inner_border : Option GtkBorder
  /-- the value of `vte_terminal_get_char_width` -/
  char_width : Int
  /-- the value of `vte_terminal_get_char_height` -/
  char_height : Int
  /-- the cells (column, row) covered by a registered match, with the matched text -/
  match_table : List ((Int × Int) × String)
deriving DecidableEq, Repr

/-- What the libraries decide on their own. -/
structure Env where
  /-- whether `g_regex_new (pattern, 0, 0, NULL)` compiles the pattern text -/
  regex_compiles : String → Bool
  /-- the value a find request returns on a terminal in the given state; the flag is
  `true` for `vte_terminal_search_find_previous` -/
  search_find : VteTerminal → Bool → Bool
  /-- the function `gdk_keyval_to_lower` -/
  gdk_keyval_to_lower : Nat → Nat
  /-- the value of `gtk_accelerator_get_default_mod_mask ()` -/
  default_mod_mask : Nat

/-- The values of `config.h` the handlers use. -/
structure Config where
  url_regex : String
  url_command : String
deriving DecidableEq, Repr

/-- The call `g_regex_new (pattern, 0, 0, NULL)`: the regex, or `none` (`NULL`) when
the pattern does not compile. -/
def g_regex_new (env : Env) (pattern : String) : Option GRegex :=
  if env.regex_compiles pattern then some ⟨pattern⟩ else none

/-- The query `vte_terminal_search_get_gregex`. -/
def vte_terminal_search_get_gregex (vte : VteTerminal) : Option GRegex :=
  vte.search_regex

/-- The call `vte_terminal_search_set_gregex`: the terminal stores what it is given;
`NULL` unsets the search regex. -/
def vte_terminal_search_set_gregex (vte : VteTerminal) (regex : Option GRegex) :
    VteTerminal :=
  { vte with search_regex := regex,
             requests := vte.requests ++ [VteRequest.search_set_gregex regex] }

/-- The call `vte_terminal_search_find_next`, with the value it returns. -/
def vte_terminal_search_find_next (env : Env) (vte : VteTerminal) : Bool × VteTerminal :=
  let found := env.search_find vte false
  (found, { vte with requests := vte.requests ++ [VteRequest.search_find_next found] })

/-- The call `vte_terminal_search_find_previous`, with the value it returns. -/
def vte_terminal_search_find_previous (env : Env) (vte : VteTerminal) :
    Bool × VteTerminal :=
  let found := env.search_find vte true
  (found, { vte with requests := vte.requests ++ [VteRequest.search_find_previous found] })

/-- The call `vte_terminal_copy_primary`. -/
def vte_terminal_copy_primary (vte : VteTerminal) : VteTerminal :=
  { vte with requests := vte.requests ++ [VteRequest.copy_primary] }

/-- The call `vte_terminal_copy_clipboard`. -/
def vte_terminal_copy_clipboard (vte : VteTerminal) : VteTerminal :=
  { vte with requests := vte.requests ++ [VteRequest.copy_clipboard] }

/-- The call `vte_terminal_paste_clipboard`. -/
def vte_terminal_paste_clipboard (vte : VteTerminal) : VteTerminal :=
  { vte with requests := vte.requests ++ [VteRequest.paste_clipboard] }

/-- The query `vte_terminal_match_check (vte, column, row, &tag)`: the matched text
at the cell, or `none` (`NULL`). -/
def vte_terminal_match_check (vte : VteTerminal) (column row : Int) : Option String :=
  List.lookup (column, row) vte.match_table

/-! ## `search` (termite.c, lines 25-37) -/

/-- The function `search`.  The previous regex is only released
(`g_regex_unref`, reference counting); the result of `g_regex_new` is handed to the
terminal unchecked; the value of the find request is dropped; `copy_primary`
follows unconditionally. -/
def search (env : Env) (vte : VteTerminal) (pattern : String) (reverse : Bool) :
    VteTerminal :=
  let _released := vte_terminal_search_get_gregex vte
  let regex := g_regex_new env pattern
  let vte := vte_terminal_search_set_gregex vte regex
  let vte :=
    if !reverse then (vte_terminal_search_find_next env vte).2
    else (vte_terminal_search_find_previous env vte).2
  vte_terminal_copy_primary vte

/-! ## The toolkit and the search session -/

/-- The struct `search_dialog_info`; the field `open` is named `is_open`. -/
structure search_dialog_info where
  vte : Nat
  entry : Nat
  reverse : Bool
  is_open : Bool
deriving DecidableEq, Repr

/-- The toolkit state: widgets by handle, existing dialogs, spawned processes. -/
structure World where
  /-- the terminal widget behind a handle -/
  terminals : Nat → VteTerminal
  /-- the text currently in the entry behind a handle -/
  entry_text : Nat → String
  /-- the dialog widgets that exist, oldest first -/
  dialogs : List Nat
  /-- the next unused widget handle -/
  next_widget : Nat
  /-- the argument vectors handed to `g_spawn_async`, oldest first -/
  spawned : List (List String)

/-- Run a function of the terminal state on the terminal behind a handle. -/
def World.on_terminal (w : World) (vte : Nat) (f : VteTerminal → VteTerminal) : World :=
  { w with terminals := fun h => if h = vte then f (w.terminals h) else w.terminals h }

/-- The call `gtk_entry_new`: a new, empty entry. -/
def gtk_entry_new (w : World) : Nat × World :=
  (w.next_widget,
   { w with next_widget := w.next_widget + 1,
            entry_text := fun h => if h = w.next_widget then "" else w.entry_text h })

/-- The query `gtk_entry_get_text`. -/
def gtk_entry_get_text (w : World) (entry : Nat) : String :=
  w.entry_text entry

/-- The call `gtk_dialog_new_with_buttons`: a new dialog widget. -/
def gtk_dialog_new_with_buttons (w : World) : Nat × World :=
  (w.next_widget,
   { w with next_widget := w.next_widget + 1,
            dialogs := w.dialogs ++ [w.next_widget] })

/-- The call `gtk_widget_destroy` on a dialog: the dialog no longer exists. -/
def gtk_widget_destroy (w : World) (dialog : Nat) : World :=
  { w with dialogs := w.dialogs.filter (fun d => d != dialog) }

/-- The call `g_spawn_async (NULL, argv, ...)`. -/
def g_spawn_async (w : World) (argv : List String) : World :=
  { w with spawned := w.spawned ++ [argv] }

/-- The constant `GTK_RESPONSE_ACCEPT`. -/
def GTK_RESPONSE_ACCEPT : Int := -3

/-- The constant `GTK_RESPONSE_DELETE_EVENT` (the dialog was closed by the window
manager). -/
def GTK_RESPONSE_DELETE_EVENT : Int := -4

/-- The constant `GTK_RESPONSE_CANCEL`. -/
def GTK_RESPONSE_CANCEL : Int := -6

/-! ## `search_response_cb` (lines 39-46) and `open_search_dialog` (lines 48-74) -/

/-- The function `search_response_cb`. -/
def search_response_cb (env : Env) (w : World) (dialog : Nat) (response_id : Int)
    (info : search_dialog_info) : World × search_dialog_info :=
  let w :=
    if response_id = GTK_RESPONSE_ACCEPT then
      w.on_terminal info.vte
        (fun t => search env t (gtk_entry_get_text w info.entry) info.reverse)
    else w
  let w := gtk_widget_destroy w dialog
  (w, { info with is_open := false })

/-- The function `open_search_dialog`.  The direction is stored before the `open`
guard.  The calls that only lay the dialog out (default response, packing the
entry, showing, focus) change nothing that is modelled; `search_response_cb` is
connected to the new dialog with `info`. -/
def open_search_dialog (w : World) (_vte : Nat) (reverse : Bool)
    (info : search_dialog_info) : World × search_dialog_info :=
  let info := { info with reverse := reverse }
  if info.is_open then (w, info)
  else
    let info := { info with is_open := true }
    let (entry, w) := gtk_entry_new w
    let info := { info with entry := entry }
    let (_dialog, w) := gtk_dialog_new_with_buttons w
    (w, info)

/-! ## `key_press_cb` (lines 76-109) -/

/-- The struct `GdkEventKey`: the modifier state and the key value. -/
structure GdkEventKey where
  state : Nat
  keyval : Nat
deriving DecidableEq, Repr

/-- The constant `GDK_SHIFT_MASK`. -/
def GDK_SHIFT_MASK : Nat := 1
/-- The constant `GDK_LOCK_MASK`. -/
def GDK_LOCK_MASK : Nat := 2
/-- The constant `GDK_CONTROL_MASK`. -/
def GDK_CONTROL_MASK : Nat := 4
/-- The constant `GDK_MOD1_MASK`. -/
def GDK_MOD1_MASK : Nat := 8

/-- The key value `GDK_b`. -/
def GDK_b : Nat := 0x62
/-- The key value `GDK_c`. -/
def GDK_c : Nat := 0x63
/-- The key value `GDK_f`. -/
def GDK_f : Nat := 0x66
/-- The key value `GDK_j`. -/
def GDK_j : Nat := 0x6a
/-- The key value `GDK_k`. -/
def GDK_k : Nat := 0x6b
/-- The key value `GDK_n`. -/
def GDK_n : Nat := 0x6e
/-- The key value `GDK_p`. -/
def GDK_p : Nat := 0x70
/-- The key value `GDK_v`. -/
def GDK_v : Nat := 0x76

/-- The function `key_press_cb`: the `handled` flag, and the state after the call. -/
def key_press_cb (env : Env) (cfg : Config) (w : World) (vte : Nat) (event : GdkEventKey)
    (info : search_dialog_info) : Bool × World × search_dialog_info :=
  let modifiers := event.state &&& env.default_mod_mask
  if modifiers = (GDK_CONTROL_MASK ||| GDK_SHIFT_MASK) then
    let key := env.gdk_keyval_to_lower event.keyval
    if key = GDK_c then
      (true, w.on_terminal vte vte_terminal_copy_clipboard, info)
    else if key = GDK_v then
      (true, w.on_terminal vte vte_terminal_paste_clipboard, info)
    else if key = GDK_p then
      (true,
       w.on_terminal vte
         (fun t => vte_terminal_copy_primary (vte_terminal_search_find_previous env t).2),
       info)
    else if key = GDK_n then
      (true,
       w.on_terminal vte
         (fun t => vte_terminal_copy_primary (vte_terminal_search_find_next env t).2),
       info)
    else if key = GDK_f then
      let r := open_search_dialog w vte false info
      (true, r.1, r.2)
    else if key = GDK_b then
      let r := open_search_dialog w vte true info
      (true, r.1, r.2)
    else if key = GDK_j then
      (true, w.on_terminal vte (fun t => search env t cfg.url_regex false), info)
    else if key = GDK_k then
      (true, w.on_terminal vte (fun t => search env t cfg.url_regex true), info)
    else (false, w, info)
  else (false, w, info)

/-! ## URL clicks (lines 112-144) -/

/-- The function `get_vte_padding`: the pair written to `*w` and `*h`. -/
def get_vte_padding (vte : VteTerminal) : Int × Int :=
  match vte.inner_border with
  | none => (0, 0)
  | some border => (border.left + border.right, border.top + border.bottom)

/-- The function `check_match`.  C division of `int` truncates toward zero
(`Int.tdiv`); both coordinates have `ypad` subtracted, `xpad` is not used. -/
def check_match (vte : VteTerminal) (event_x event_y : Int) : Option String :=
  let (_xpad, ypad) := get_vte_padding vte
  vte_terminal_match_check vte
    (Int.tdiv (event_x - ypad) vte.char_width)
    (Int.tdiv (event_y - ypad) vte.char_height)

/-- The struct `GdkEventButton`; `x` and `y` are the pointer position as `int`, the
values `check_match` receives. -/
structure GdkEventButton where
  button : Nat
  type : Int
  x : Int
  y : Int
deriving DecidableEq, Repr

/-- The constant `GDK_BUTTON_PRESS`. -/
def GDK_BUTTON_PRESS : Int := 4
/-- The constant `GDK_2BUTTON_PRESS` (the event of a double click). -/
def GDK_2BUTTON_PRESS : Int := 5

/-- The function `button_press_cb`: the `handled` flag, and the state after the
call.  The argument vector is `{url_command, match, NULL}`; `m.toList` is the one
string `match` in the branch where it is not `NULL`. -/
def button_press_cb (cfg : Config) (w : World) (vte : Nat) (event : GdkEventButton) :
    Bool × World :=
  let m := check_match (w.terminals vte) event.x event.y
  if event.button = 1 ∧ event.type = GDK_BUTTON_PRESS ∧ m ≠ none then
    (true, g_spawn_async w (cfg.url_command :: m.toList))
  else (false, w)

/-! ## The event loop (`main`, lines 244-247 and 273) -/

/-- The program state the callbacks share: the toolkit state and the one
`search_dialog_info` of `main`. -/
structure App where
  world : World
  info : search_dialog_info

/-- The state `main` enters `gtk_main` with: `info = { .vte = vte, .open = false }`
(the other fields zero), no dialog, nothing spawned. -/
def main_init (terminals : Nat → VteTerminal) (vte : Nat) : App :=
  { world := { terminals := terminals, entry_text := fun _ => "", dialogs := [],
               next_widget := vte + 1, spawned := [] },
    info := { vte := vte, entry := 0, reverse := false, is_open := false } }

/-- What can happen while `gtk_main` runs: a call of `open_search_dialog`, a
`response` signal of a dialog, a key press on a terminal, the user editing an
entry, a button press on a terminal. -/
inductive Event where
  | open_search (vte : Nat) (reverse : Bool)
  | response (dialog : Nat) (response_id : Int)
  | key_press (vte : Nat) (event : GdkEventKey)
  | edit (entry : Nat) (text : String)
  | button_press (vte : Nat) (event : GdkEventButton)
deriving DecidableEq, Repr

/-- One event.  A `response` signal reaches `search_response_cb` only from a dialog
that exists (the handler is connected to the dialog). -/
def step (env : Env) (cfg : Config) (a : App) : Event → App
  | Event.open_search vte reverse =>
    let r := open_search_dialog a.world vte reverse a.info
    { world := r.1, info := r.2 }
  | Event.response dialog response_id =>
    if dialog ∈ a.world.dialogs then
      let r := search_response_cb env a.world dialog response_id a.info
      { world := r.1, info := r.2 }
    else a
  | Event.key_press vte event =>
    let r := key_press_cb env cfg a.world vte event a.info
    { world := r.2.1, info := r.2.2 }
  | Event.edit entry text =>
    { a with world :=
        { a.world with
            entry_text := fun h => if h = entry then text else a.world.entry_text h } }
  | Event.button_press vte event =>
    { a with world := (button_press_cb cfg a.world vte event).2 }

/-- A sequence of events, oldest first. -/
def run (env : Env) (cfg : Config) (a : App) (events : List Event) : App :=
  events.foldl (step env cfg) a

/-! ## Observations used in the statements -/

/-- The requests `search` issues on the terminal: what it appends to the list. -/
def search_requests (env : Env) (vte : VteTerminal) (pattern : String) (reverse : Bool) :
    List VteRequest :=
  (search env vte pattern reverse).requests.drop vte.requests.length

/-- Whether a request is a find-next request. -/
def VteRequest.is_find_next : VteRequest → Bool
  | VteRequest.search_find_next _ => true
  | _ => false

/-- Whether a request is a find-previous request. -/
def VteRequest.is_find_previous : VteRequest → Bool
  | VteRequest.search_find_previous _ => true
  | _ => false

/-- The dialog invariant: at most one dialog exists, and the `open` flag is true
exactly when one exists. -/
def dialog_inv (a : App) : Prop :=
  a.world.dialogs.length ≤ 1 ∧ (a.info.is_open = true ↔ a.world.dialogs.length = 1)

/-- The keys of the dispatch table of `key_press_cb`. -/
def chord_keys : List Nat := [GDK_c, GDK_v, GDK_p, GDK_n, GDK_f, GDK_b, GDK_j, GDK_k]

/-! ## Sample values -/

/-- An environment: every pattern text but `"("` compiles, no find request finds
anything, ASCII capitals fold to lower case, and the modifier mask is the GTK
default (Shift, Control, Mod1, Super, Hyper, Meta). -/
def sample_env : Env :=
  { regex_compiles := fun p => p != "(",
    search_find := fun _ _ => false,
    gdk_keyval_to_lower := fun k => if 0x41 ≤ k ∧ k ≤ 0x5a then k + 0x20 else k,
    default_mod_mask := 1 ||| 4 ||| 8 ||| 2 ^ 26 ||| 2 ^ 27 ||| 2 ^ 28 }

/-- A configuration. -/
def sample_cfg : Config :=
  { url_regex := "https?://[^ ]+", url_command := "firefox" }

/-- A terminal with active pattern `foo`, horizontal padding 20, vertical padding
0, cells of 10 by 10 pixels, one URL in the cell at column 0, row 0 and another in
the cell at column 2, row 0. -/
def sample_vte : VteTerminal :=
  { search_regex := some ⟨"foo"⟩, requests := [],
    inner_border := some { left := 10, right := 10, top := 0, bottom := 0 },
    char_width := 10, char_height := 10,
    match_table := [((0, 0), "http://a.b"), ((2, 0), "http://c.d")] }

/-- The terminal `sample_vte` behind every handle. -/
def sample_terminals : Nat → VteTerminal :=
  fun _ => sample_vte

/-- A toolkit state with the terminal at every handle, the text `bar` in every
entry and one dialog, widget 3. -/
def sample_world : World :=
  { terminals := sample_terminals, entry_text := fun _ => "bar", dialogs := [3],
    next_widget := 4, spawned := [] }

/-- An open forward session on terminal 1 with entry 2. -/
def sample_info : search_dialog_info :=
  { vte := 1, entry := 2, reverse := false, is_open := true }

/-! ## Key chords -/

/-- C1: `key_press_cb` reports the event handled if and only if the event's
modifiers (its state under the accelerator modifier mask, the value the function
names `modifiers`) are exactly Control and Shift and the key value, folded to lower
case, is one of c, v, p, n, f, b, j, k. -/
theorem key_press_cb_handled_iff (env : Env) (cfg : Config) (w : World) (vte : Nat)
    (event : GdkEventKey) (info : search_dialog_info) :
    (key_press_cb env cfg w vte event info).1 = true ↔
      (event.state &&& env.default_mod_mask = (GDK_CONTROL_MASK ||| GDK_SHIFT_MASK) ∧
        env.gdk_keyval_to_lower event.keyval ∈ chord_keys) := by
  unfold key_press_cb chord_keys
  by_cases hm : event.state &&& env.default_mod_mask = (GDK_CONTROL_MASK ||| GDK_SHIFT_MASK)
  · simp only [hm, if_true, true_and, List.mem_cons, List.mem_singleton, List.not_mem_nil,
      or_false]
    split_ifs <;> simp_all
  · simp [hm]

/-- With the GTK default mask, bits outside the mask, such as Caps Lock, are not
modifiers of the chord: Control+Shift+C with Caps Lock on is handled, and
Control+Shift+Mod1+C is not. -/
theorem key_press_cb_lock_ignored :
    (key_press_cb sample_env sample_cfg sample_world 1
        { state := GDK_CONTROL_MASK ||| GDK_SHIFT_MASK ||| GDK_LOCK_MASK, keyval := 0x43 }
        sample_info).1 = true ∧
      (key_press_cb sample_env sample_cfg sample_world 1
        { state := GDK_CONTROL_MASK ||| GDK_SHIFT_MASK ||| GDK_MOD1_MASK, keyval := 0x43 }
        sample_info).1 = false := by
  decide

/-! ## `search` -/

/-- The requests `search` issues, in order: the result of compiling the pattern is
set as the search regex, one find request follows in the direction asked for, on
the terminal as the set request left it, and one `copy_primary`. -/
theorem search_requests_eq (env : Env) (vte : VteTerminal) (pattern : String)
    (reverse : Bool) :
    search_requests env vte pattern reverse =
      [VteRequest.search_set_gregex (g_regex_new env pattern),
       if reverse then
         VteRequest.search_find_previous
           (env.search_find (vte_terminal_search_set_gregex vte (g_regex_new env pattern)) true)
       else
         VteRequest.search_find_next
           (env.search_find (vte_terminal_search_set_gregex vte (g_regex_new env pattern)) false),
       VteRequest.copy_primary] := by
  cases reverse <;>
    simp [search_requests, search, vte_terminal_copy_primary, vte_terminal_search_find_next,
      vte_terminal_search_find_previous, vte_terminal_search_set_gregex]

/-- The search regex after `search` is the result of compiling the pattern. -/
theorem search_search_regex (env : Env) (vte : VteTerminal) (pattern : String)
    (reverse : Bool) :
    (search env vte pattern reverse).search_regex = g_regex_new env pattern := by
  cases reverse <;>
    simp [search, vte_terminal_copy_primary, vte_terminal_search_find_next,
      vte_terminal_search_find_previous, vte_terminal_search_set_gregex]

/-- The requests of the terminal after `search` are the earlier ones followed by
the ones `search` issues. -/
theorem search_requests_append (env : Env) (vte : VteTerminal) (pattern : String)
    (reverse : Bool) :
    (search env vte pattern reverse).requests =
      vte.requests ++ search_requests env vte pattern reverse := by
  cases reverse <;>
    simp [search_requests, search, vte_terminal_copy_primary, vte_terminal_search_find_next,
      vte_terminal_search_find_previous, vte_terminal_search_set_gregex]

/-- C3, as stated, fails: on a terminal whose active pattern is `foo`, `search` with
the pattern `"("`, which does not compile, leaves no active pattern. -/
theorem search_invalid_pattern_clears :
    g_regex_new sample_env "(" = none ∧
      sample_vte.search_regex = some ⟨"foo"⟩ ∧
      (search sample_env sample_vte "(" false).search_regex = none ∧
      (search sample_env sample_vte "(" false).search_regex ≠ sample_vte.search_regex := by
  decide

/-- C3, amended: for every terminal state and every pattern that fails to compile,
after `search` the terminal has no active search pattern, whatever was active
before; the pattern is unchanged exactly when none was active before. -/
theorem search_invalid_pattern_unsets (env : Env) (vte : VteTerminal) (pattern : String)
    (reverse : Bool) (h : g_regex_new env pattern = none) :
    (search env vte pattern reverse).search_regex = none ∧
      ((search env vte pattern reverse).search_regex = vte.search_regex ↔
        vte.search_regex = none) := by
  rw [search_search_regex, h]
  exact ⟨rfl, eq_comm⟩

/-- The amended C3 at the pattern `"("` on a terminal whose active pattern is
`foo`. -/
theorem search_invalid_pattern_unsets_witness :
    g_regex_new sample_env "(" = none ∧
      (search sample_env sample_vte "(" true).search_regex = none ∧
      ((search sample_env sample_vte "(" true).search_regex = sample_vte.search_regex ↔
        sample_vte.search_regex = none) :=
  ⟨by decide, search_invalid_pattern_unsets sample_env sample_vte "(" true (by decide)⟩

/-- C4, as stated, fails: the find-next request of `search` reports no match, and
`search` still issues one `copy_primary`, not zero. -/
theorem search_copies_without_match :
    search_requests sample_env sample_vte "bar" false =
        [VteRequest.search_set_gregex (some ⟨"bar"⟩), VteRequest.search_find_next false,
         VteRequest.copy_primary] ∧
      (search_requests sample_env sample_vte "bar" false).count VteRequest.copy_primary ≠ 0 := by
  decide

/-- C4, amended: for every pattern and direction, `search` issues exactly one
`copy_primary`, whatever the find request reports. -/
theorem search_copy_primary_once (env : Env) (vte : VteTerminal) (pattern : String)
    (reverse : Bool) :
    (search_requests env vte pattern reverse).count VteRequest.copy_primary = 1 := by
  rw [search_requests_eq]
  cases reverse <;> simp [List.count_cons]

/-- C8: for every pattern, `search` with `reverse == false` issues exactly one
find-next and no find-previous request, and with `reverse == true` exactly one
find-previous and no find-next request; in both cases the find request is the one
issued right after the set request that installs the compiled pattern, on a
terminal whose active pattern is that compiled pattern. -/
theorem search_find_direction (env : Env) (vte : VteTerminal) (pattern : String) :
    ((search_requests env vte pattern false).countP VteRequest.is_find_next = 1 ∧
      (search_requests env vte pattern false).countP VteRequest.is_find_previous = 0 ∧
      search_requests env vte pattern false =
        [VteRequest.search_set_gregex (g_regex_new env pattern),
         VteRequest.search_find_next
           (env.search_find (vte_terminal_search_set_gregex vte (g_regex_new env pattern))
             false),
         VteRequest.copy_primary]) ∧
    ((search_requests env vte pattern true).countP VteRequest.is_find_previous = 1 ∧
      (search_requests env vte pattern true).countP VteRequest.is_find_next = 0 ∧
      search_requests env vte pattern true =
        [VteRequest.search_set_gregex (g_regex_new env pattern),
         VteRequest.search_find_previous
           (env.search_find (vte_terminal_search_set_gregex vte (g_regex_new env pattern))
             true),
         VteRequest.copy_primary]) ∧
    (vte_terminal_search_set_gregex vte (g_regex_new env pattern)).search_regex =
      g_regex_new env pattern := by
  simp [search_requests_eq, VteRequest.is_find_next, VteRequest.is_find_previous,
    List.countP_cons, vte_terminal_search_set_gregex]

/-! ## The search dialog -/

/-- C2, as stated, fails: on an open forward session, `open_search_dialog` with the
backward direction changes the session (its direction becomes backward), and the
search run on acceptance is a find-previous. -/
theorem open_search_dialog_overwrites_direction :
    sample_info.is_open = true ∧ sample_info.reverse = false ∧
      (open_search_dialog sample_world 1 true sample_info).2 ≠ sample_info ∧
      (open_search_dialog sample_world 1 true sample_info).2.reverse = true ∧
      ((search_response_cb sample_env (open_search_dialog sample_world 1 true sample_info).1 3
          GTK_RESPONSE_ACCEPT
          (open_search_dialog sample_world 1 true sample_info).2).1.terminals 1).requests =
        [VteRequest.search_set_gregex (some ⟨"bar"⟩), VteRequest.search_find_previous false,
         VteRequest.copy_primary] := by
  decide

/-- C2, amended: on a session whose `open` flag is already true,
`open_search_dialog` creates nothing and leaves the toolkit state and the session
unchanged except for the session's direction, which becomes the requested one; the
search run on acceptance uses that last requested direction. -/
theorem open_search_dialog_when_open (env : Env) (w : World) (vte : Nat) (reverse : Bool)
    (info : search_dialog_info) (dialog : Nat) (h : info.is_open = true) :
    open_search_dialog w vte reverse info = (w, { info with reverse := reverse }) ∧
      (search_response_cb env (open_search_dialog w vte reverse info).1 dialog
          GTK_RESPONSE_ACCEPT (open_search_dialog w vte reverse info).2).1.terminals info.vte =
        search env (w.terminals info.vte) (gtk_entry_get_text w info.entry) reverse := by
  have h1 : open_search_dialog w vte reverse info = (w, { info with reverse := reverse }) := by
    simp [open_search_dialog, h]
  refine ⟨h1, ?_⟩
  rw [h1]
  simp [search_response_cb, World.on_terminal, gtk_widget_destroy]

/-- The amended C2 on the open forward session, asked for the backward direction. -/
theorem open_search_dialog_when_open_witness :
    sample_info.is_open = true ∧
      open_search_dialog sample_world 1 true sample_info =
        (sample_world, { sample_info with reverse := true }) ∧
      (search_response_cb sample_env (open_search_dialog sample_world 1 true sample_info).1 3
          GTK_RESPONSE_ACCEPT
          (open_search_dialog sample_world 1 true sample_info).2).1.terminals sample_info.vte =
        search sample_env (sample_world.terminals sample_info.vte)
          (gtk_entry_get_text sample_world sample_info.entry) true :=
  ⟨rfl, open_search_dialog_when_open sample_env sample_world 1 true sample_info 3 rfl⟩

/-- C6: for every session state and every response (accept, cancel, close by the
window manager, any other), after `search_response_cb` the dialog does not exist
any more and the session's `open` flag is false. -/
theorem search_response_cb_closes (env : Env) (w : World) (dialog : Nat) (response_id : Int)
    (info : search_dialog_info) :
    dialog ∉ (search_response_cb env w dialog response_id info).1.dialogs ∧
      (search_response_cb env w dialog response_id info).2.is_open = false := by
  simp [search_response_cb, gtk_widget_destroy]

/-- `search` changes the terminal: it appends three requests. -/
theorem search_ne_self (env : Env) (vte : VteTerminal) (pattern : String) (reverse : Bool) :
    search env vte pattern reverse ≠ vte := by
  intro h
  have h2 := congrArg (fun t => t.requests.length) h
  simp only [search_requests_append, search_requests_eq, List.length_append,
    List.length_cons, List.length_nil] at h2
  omega

/-- C9: `search_response_cb` runs a search exactly when the response is accept: on
accept the session's terminal becomes the result of `search` on it with the text
of the session's entry as pattern and the session's stored direction, and no other
terminal changes; on every other response no terminal changes at all (no request
is issued, the active pattern stays); the session's terminal changes if and only
if the response is accept. -/
theorem search_response_cb_search (env : Env) (w : World) (dialog : Nat) (response_id : Int)
    (info : search_dialog_info) :
    (response_id = GTK_RESPONSE_ACCEPT →
      (search_response_cb env w dialog response_id info).1.terminals info.vte =
          search env (w.terminals info.vte) (gtk_entry_get_text w info.entry) info.reverse ∧
        ∀ h, h ≠ info.vte →
          (search_response_cb env w dialog response_id info).1.terminals h = w.terminals h) ∧
    (response_id ≠ GTK_RESPONSE_ACCEPT →
      (search_response_cb env w dialog response_id info).1.terminals = w.terminals) ∧
    ((search_response_cb env w dialog response_id info).1.terminals info.vte ≠
        w.terminals info.vte ↔ response_id = GTK_RESPONSE_ACCEPT) := by
  by_cases hr : response_id = GTK_RESPONSE_ACCEPT
  · have hs := search_ne_self env (w.terminals info.vte) (gtk_entry_get_text w info.entry)
      info.reverse
    simp only [search_response_cb, hr, if_true, World.on_terminal, gtk_widget_destroy]
    refine ⟨fun _ => ⟨by simp, fun h hne => by simp [hne]⟩, fun hc => absurd rfl hc, ?_⟩
    simpa using hs
  · simp [search_response_cb, hr, gtk_widget_destroy]

/-- C9 on the sample session: accept runs a backward or forward search as stored,
cancel issues nothing. -/
theorem search_response_cb_search_witness :
    ((search_response_cb sample_env sample_world 3 GTK_RESPONSE_ACCEPT sample_info).1.terminals
        sample_info.vte =
      search sample_env (sample_world.terminals sample_info.vte)
        (gtk_entry_get_text sample_world sample_info.entry) sample_info.reverse) ∧
    (search_response_cb sample_env sample_world 3 GTK_RESPONSE_CANCEL sample_info).1.terminals =
      sample_world.terminals :=
  ⟨((search_response_cb_search sample_env sample_world 3 GTK_RESPONSE_ACCEPT sample_info).1
      rfl).1,
   (search_response_cb_search sample_env sample_world 3 GTK_RESPONSE_CANCEL sample_info).2.1
      (by decide)⟩

/-! ## At most one dialog -/

/-- The state `main` starts with satisfies the dialog invariant. -/
theorem main_init_inv (terminals : Nat → VteTerminal) (vte : Nat) :
    dialog_inv (main_init terminals vte) := by
  simp [dialog_inv, main_init]

/-- The function `open_search_dialog` keeps the dialog invariant. -/
theorem open_search_dialog_inv (w : World) (vte : Nat) (reverse : Bool)
    (info : search_dialog_info) (h : dialog_inv { world := w, info := info }) :
    dialog_inv { world := (open_search_dialog w vte reverse info).1,
                 info := (open_search_dialog w vte reverse info).2 } := by
  obtain ⟨hle, hiff⟩ := h
  simp only at hle hiff
  by_cases ho : info.is_open = true
  · simpa [dialog_inv, open_search_dialog, ho] using And.intro hle hiff
  · have hlen : w.dialogs.length = 0 := by
      have : w.dialogs.length ≠ 1 := fun h1 => ho (hiff.mpr h1)
      omega
    simp [dialog_inv, open_search_dialog, ho, gtk_entry_new, gtk_dialog_new_with_buttons, hlen]

/-- The function `search_response_cb`, called for a dialog that exists, keeps the
dialog invariant. -/
theorem search_response_cb_inv (env : Env) (w : World) (dialog : Nat) (response_id : Int)
    (info : search_dialog_info) (h : dialog_inv { world := w, info := info })
    (hd : dialog ∈ w.dialogs) :
    dialog_inv { world := (search_response_cb env w dialog response_id info).1,
                 info := (search_response_cb env w dialog response_id info).2 } := by
  obtain ⟨hle, _⟩ := h
  simp only at hle
  have hw : w.dialogs = [dialog] := by
    match hl : w.dialogs with
    | [] => rw [hl] at hd; simp at hd
    | [d] => rw [hl] at hd; simp at hd; rw [hd]
    | _ :: _ :: _ => rw [hl] at hle; simp at hle
  by_cases hr : response_id = GTK_RESPONSE_ACCEPT <;>
    simp [dialog_inv, search_response_cb, gtk_widget_destroy, World.on_terminal, hw, hr]

/-- The function `key_press_cb` keeps the dialog invariant. -/
theorem key_press_cb_inv (env : Env) (cfg : Config) (w : World) (vte : Nat)
    (event : GdkEventKey) (info : search_dialog_info)
    (h : dialog_inv { world := w, info := info }) :
    dialog_inv { world := (key_press_cb env cfg w vte event info).2.1,
                 info := (key_press_cb env cfg w vte event info).2.2 } := by
  have hf := open_search_dialog_inv w vte false info h
  have hb := open_search_dialog_inv w vte true info h
  unfold key_press_cb
  simp only
  split_ifs <;> first | exact h | exact hf | exact hb

/-- Every event keeps the dialog invariant. -/
theorem step_inv (env : Env) (cfg : Config) (a : App) (e : Event) (h : dialog_inv a) :
    dialog_inv (step env cfg a e) := by
  cases e with
  | open_search vte reverse => exact open_search_dialog_inv a.world vte reverse a.info h
  | response dialog response_id =>
    simp only [step]
    split_ifs with hd
    · exact search_response_cb_inv env a.world dialog response_id a.info h hd
    · exact h
  | key_press vte event => exact key_press_cb_inv env cfg a.world vte event a.info h
  | edit entry text => exact h
  | button_press vte event =>
    have hd : (button_press_cb cfg a.world vte event).2.dialogs = a.world.dialogs := by
      unfold button_press_cb
      simp only
      split_ifs <;> rfl
    simpa [dialog_inv, step, hd] using h

/-- Every sequence of events keeps the dialog invariant. -/
theorem run_inv (env : Env) (cfg : Config) (events : List Event) :
    ∀ a : App, dialog_inv a → dialog_inv (run env cfg a events) := by
  induction events with
  | nil => intro a h; exact h
  | cons e es ih => intro a h; exact ih (step env cfg a e) (step_inv env cfg a e h)

/-- C7: from the state `main` starts with (`open == false`, no dialog), after every
sequence of `open_search_dialog` calls, dialog responses, key presses, entry edits
and button presses, at most one dialog exists and the `open` flag is true exactly when one
exists; a further `open_search_dialog` while the flag is true leaves the dialogs as
they are and the flag true. -/
theorem at_most_one_dialog (env : Env) (cfg : Config) (terminals : Nat → VteTerminal)
    (vte : Nat) (events : List Event) :
    (run env cfg (main_init terminals vte) events).world.dialogs.length ≤ 1 ∧
    ((run env cfg (main_init terminals vte) events).info.is_open = true ↔
      (run env cfg (main_init terminals vte) events).world.dialogs.length = 1) ∧
    ∀ (vte2 : Nat) (reverse : Bool),
      (run env cfg (main_init terminals vte) events).info.is_open = true →
        (step env cfg (run env cfg (main_init terminals vte) events)
            (Event.open_search vte2 reverse)).world.dialogs =
          (run env cfg (main_init terminals vte) events).world.dialogs ∧
        (step env cfg (run env cfg (main_init terminals vte) events)
            (Event.open_search vte2 reverse)).info.is_open = true := by
  have h := run_inv env cfg events (main_init terminals vte) (main_init_inv terminals vte)
  refine ⟨h.1, h.2, ?_⟩
  intro vte2 reverse ho
  simp [step, open_search_dialog, ho]

/-- C7 on a run that opens the dialog forward and then asks for it again backward:
one dialog, the flag true, and a third request changes neither. -/
theorem at_most_one_dialog_witness :
    (run sample_env sample_cfg (main_init sample_terminals 1)
        [Event.open_search 1 false, Event.open_search 1 true]).world.dialogs = [3] ∧
    (run sample_env sample_cfg (main_init sample_terminals 1)
        [Event.open_search 1 false, Event.open_search 1 true]).info.is_open = true ∧
    (step sample_env sample_cfg
        (run sample_env sample_cfg (main_init sample_terminals 1)
          [Event.open_search 1 false, Event.open_search 1 true])
        (Event.open_search 1 false)).world.dialogs =
      (run sample_env sample_cfg (main_init sample_terminals 1)
        [Event.open_search 1 false, Event.open_search 1 true]).world.dialogs :=
  ⟨by decide, by decide,
   ((at_most_one_dialog sample_env sample_cfg sample_terminals 1
      [Event.open_search 1 false, Event.open_search 1 true]).2.2 1 false (by decide)).1⟩

/-! ## URL clicks -/

/-- The cell `check_match` asks the terminal about: both the column and the row
are computed from the vertical padding. -/
theorem check_match_cell (vte : VteTerminal) (event_x event_y : Int) :
    check_match vte event_x event_y =
      vte_terminal_match_check vte
        (Int.tdiv (event_x - (get_vte_padding vte).2) vte.char_width)
        (Int.tdiv (event_y - (get_vte_padding vte).2) vte.char_height) := by
  simp [check_match]

/-- C5 at the pointer position (25, 5) on a terminal with horizontal padding 20,
vertical padding 0 and cells of 10 by 10 pixels: the claim's cell is column
(25 - 20) / 10 = 0, row 0, which holds `http://a.b`; `check_match` returns the text
of column (25 - 0) / 10 = 2, row 0, `http://c.d`. -/
theorem check_match_column_uses_ypad :
    get_vte_padding sample_vte = (20, 0) ∧
      sample_vte.char_width = 10 ∧ sample_vte.char_height = 10 ∧
      vte_terminal_match_check sample_vte (Int.tdiv (25 - 20) 10) (Int.tdiv (5 - 0) 10) =
        some "http://a.b" ∧
      vte_terminal_match_check sample_vte (Int.tdiv (25 - 0) 10) (Int.tdiv (5 - 0) 10) =
        some "http://c.d" ∧
      check_match sample_vte 25 5 = some "http://c.d" := by
  decide

/-- What `button_press_cb` does with the result of `check_match`: it spawns, with
the argument vector `[url_command, match]`, and reports the event handled, exactly
when the button is 1, the event a single press and `check_match` returns a match;
otherwise it spawns nothing and reports the event not handled. -/
theorem button_press_cb_dispatch (cfg : Config) (w : World) (vte : Nat)
    (event : GdkEventButton) :
    (∀ m, event.button = 1 → event.type = GDK_BUTTON_PRESS →
        check_match (w.terminals vte) event.x event.y = some m →
        button_press_cb cfg w vte event = (true, g_spawn_async w [cfg.url_command, m])) ∧
    (¬ (event.button = 1 ∧ event.type = GDK_BUTTON_PRESS ∧
          check_match (w.terminals vte) event.x event.y ≠ none) →
        button_press_cb cfg w vte event = (false, w)) := by
  constructor
  · intro m hb ht hm
    simp [button_press_cb, hm, hb, ht]
  · intro hn
    simp only [button_press_cb]
    rw [if_neg hn]

/-- C10 at a primary-button single press at (45, 5) on the same terminal: the cell
under the pointer, column (45 - 20) / 10 = 2, row 0, holds `http://c.d`, but
`button_press_cb` looks at column (45 - 0) / 10 = 4, spawns nothing and reports the
event not handled. -/
theorem button_press_cb_misses_match :
    vte_terminal_match_check (sample_world.terminals 1) (Int.tdiv (45 - 20) 10)
        (Int.tdiv (5 - 0) 10) = some "http://c.d" ∧
      (button_press_cb sample_cfg sample_world 1
        { button := 1, type := GDK_BUTTON_PRESS, x := 45, y := 5 }).1 = false ∧
      (button_press_cb sample_cfg sample_world 1
        { button := 1, type := GDK_BUTTON_PRESS, x := 45, y := 5 }).2.spawned = [] := by
  decide

end Termite
